import Mathlib

/-!
Shallow embedding of `00_download_PDFs/01_get_and_parse_PDF.py`.

The script reads a CSV manifest of paper rows, downloads each paper's PDF
(pass 1), then sends each PDF to a Grobid server and writes the TEI XML and a
`meta.json` sidecar (pass 2).  Filesystem state is modelled as three maps from
folder name to artifact content; the network is modelled as an oracle (an
`Env`) giving the outcome of each download and of each Grobid attempt.
Machine-level concerns (bytes on disk, UTF-8 encoding, real sleeping) are
abstracted: file contents are `String`/`Nat` tokens, sleeps are recorded as a
list of durations.
-/

namespace GetAndParsePDF

/-- A CSV manifest row, as produced by `csv.DictReader`: the four relevant
columns, with a missing column read back as the empty string
(`str(row.get(k) or "")` in the script). -/
structure Row where
  paper_id : String
  forum : String
  title : String
  pdf_url : String
deriving DecidableEq, Repr

/-- The metadata record written to `meta.json` (line 146 and line 238 of the
script). -/
structure Meta where
  paper_id : String
  forum : String
  title : String
  pdf_url : String
deriving DecidableEq, Repr

/-- The on-disk output tree under `OUTPUT_ROOT`: for each folder name, the
optional PDF (content abstracted to a `Nat` token), the optional TEI XML
(a string) and the optional `meta.json` record. -/
structure FS where
  pdf : String → Option Nat
  tei : String → Option String
  meta : String → Option Meta

/-- The empty output tree. -/
def FS.empty : FS := ⟨fun _ => none, fun _ => none, fun _ => none⟩

/-- Write the PDF for `folder` (the body of `download_pdf`, line 51). -/
def FS.setPdf (fs : FS) (folder : String) (c : Nat) : FS :=
  { fs with pdf := fun s => if s = folder then some c else fs.pdf s }

/-- Write the TEI XML for `folder` (line 92 of the script). -/
def FS.setTei (fs : FS) (folder : String) (t : String) : FS :=
  { fs with tei := fun s => if s = folder then some t else fs.tei s }

/-- Write `meta.json` for `folder` (line 244 of the script). -/
def FS.setMeta (fs : FS) (folder : String) (m : Meta) : FS :=
  { fs with meta := fun s => if s = folder then some m else fs.meta s }

/-- Drop leading and trailing whitespace from a character list. -/
def stripChars (l : List Char) : List Char :=
  ((l.dropWhile Char.isWhitespace).reverse.dropWhile Char.isWhitespace).reverse

/-- Python's `str.strip()` (applied to every CSV field and to the Grobid
response body): remove leading and trailing whitespace. -/
def strip (s : String) : String :=
  ⟨stripChars s.data⟩

/-- `folder_name = paper_id or forum` (line 196/217): the stripped `paper_id`
when non-empty, otherwise the stripped `forum`. -/
def resolvedId (row : Row) : String :=
  if strip row.paper_id = "" then strip row.forum else strip row.paper_id

/-- The outcome the server gives to one Grobid POST (line 83): either a
`requests.RequestException` (connection failure, timeout, or the non-2xx
raised by `raise_for_status`), identified by its `repr` string, or a 2xx
response carrying a body text. -/
inductive Attempt where
  | exc (e : String)
  | response (body : String)
deriving DecidableEq, Repr

/-- How one call of `grobid_process_fulltext` ends: a normal return (with the
text written to the output XML file, if any was written), a re-raised
`RequestException`, or the `ValueError` of the TEI sanity check (line 90). -/
inductive GrobidOutcome where
  | success (written : Option String)
  | transportErr (e : String)
  | validationErr
deriving DecidableEq, Repr

/-- Auxiliary for substring containment: does `needle` occur as a contiguous
sublist of the character list? -/
def listContains (needle : List Char) : List Char → Bool
  | [] => needle.isEmpty
  | c :: rest => needle.isPrefixOf (c :: rest) || listContains needle rest

/-- `"<TEI" in text` (line 89): substring containment. -/
def containsSub (needle hay : String) : Bool :=
  listContains needle.toList hay.toList

/-- The sanity check of line 89: the stripped body must be non-empty and
contain the TEI root marker. -/
def teiOk (text : String) : Bool :=
  !(text = "") && containsSub "<TEI" text

/-- The `repr` of the `ValueError` raised by the sanity check, as recorded by
the row-boundary handler of `main`. -/
def validationReason : String :=
  "ValueError('Grobid returned empty or non-TEI response')"

/-- The retry loop of `grobid_process_fulltext` (lines 74-102).  `attempt` is
the 1-based loop counter; `fuel` is the number of loop iterations left
(`retries - attempt + 1` at entry).  Returns the outcome, the number of POST
attempts performed, and the list of sleep durations (`backoff * attempt`
after each failed attempt except the last, line 100). -/
def grobidGo (oracle : Nat → Attempt) (backoff : ℚ) (retries : Nat) :
    Nat → Nat → GrobidOutcome × Nat × List ℚ
  | _, 0 => (.success none, 0, [])
  | attempt, fuel + 1 =>
    match oracle attempt with
    | .response body =>
      let text := strip body
      if teiOk text then (.success (some text), 1, [])
      else (.validationErr, 1, [])
    | .exc e =>
      if attempt < retries then
        let r := grobidGo oracle backoff retries (attempt + 1) fuel
        (r.1, r.2.1 + 1, (backoff * (attempt : ℚ)) :: r.2.2)
      else (.transportErr e, 1, [])

/-- `grobid_process_fulltext(pdf, out, retries, backoff)`: run the loop from
attempt 1. -/
def grobidRun (oracle : Nat → Attempt) (backoff : ℚ) (retries : Nat) :
    GrobidOutcome × Nat × List ℚ :=
  grobidGo oracle backoff retries 1 retries

/-- An entry of `errors_download` / `errors_parse`:
`(index, paper_id, reason)` (lines 193, 198, 208, 219, 228, 247). -/
abbrev ErrorRec := Nat × String × String

/-- The external world: the outcome of a GET on a given URL (`requests.get`
plus `raise_for_status`, abstracting the streamed body to a `Nat` token, with
a failure carried as its `repr` string), and, for each paper folder, the
outcome of the n-th Grobid POST on that folder's PDF. -/
structure Env where
  download : String → Except String Nat
  grobid : String → Nat → Attempt

/-- One row of pass 1 (lines 187-208): returns the new filesystem, the
download-error records appended for this row, and the number of network calls
made. -/
def pass1Row (env : Env) (fs : FS) (idx : Nat) (row : Row) :
    FS × List ErrorRec × Nat :=
  let paper_id := strip row.paper_id
  let pdf_url := strip row.pdf_url
  if pdf_url = "" then (fs, [(idx, paper_id, "missing_pdf_url")], 0)
  else
    let folder := resolvedId row
    if folder = "" then (fs, [(idx, paper_id, "missing_ids")], 0)
    else
      match fs.pdf folder with
      | some _ => (fs, [], 0)
      | none =>
        match env.download pdf_url with
        | .ok c => (fs.setPdf folder c, [], 1)
        | .error e => (fs, [(idx, paper_id, e)], 1)

/-- The metadata write of pass 2 (lines 237-245): written only when missing. -/
def metaStep (fs : FS) (folder : String) (row : Row) : FS :=
  match fs.meta folder with
  | some _ => fs
  | none =>
    fs.setMeta folder
      ⟨strip row.paper_id, strip row.forum, strip row.title, strip row.pdf_url⟩

/-- One row of pass 2 (lines 211-247): Grobid call when the TEI file is
missing, then the metadata write, with any exception caught at the row
boundary and appended to `errors_parse`.  `main` calls
`grobid_process_fulltext` with its defaults `retries=3`, `backoff=5.0`. -/
def pass2Row (env : Env) (fs : FS) (idx : Nat) (row : Row) :
    FS × List ErrorRec × Nat :=
  let paper_id := strip row.paper_id
  let folder := resolvedId row
  if folder = "" then (fs, [(idx, paper_id, "missing_ids")], 0)
  else
    match fs.pdf folder with
    | none => (fs, [(idx, paper_id, "pdf_not_downloaded")], 0)
    | some _ =>
      match fs.tei folder with
      | some _ => (metaStep fs folder row, [], 0)
      | none =>
        let g := grobidRun (env.grobid folder) 5 3
        match g.1 with
        | .success (some text) => (metaStep (fs.setTei folder text) folder row, [], g.2.1)
        | .success none => (metaStep fs folder row, [], g.2.1)
        | .transportErr e => (fs, [(idx, paper_id, e)], g.2.1)
        | .validationErr => (fs, [(idx, paper_id, validationReason)], g.2.1)

/-- A pass over the rows (`for idx, row in enumerate(rows, start=1)`),
threading the filesystem, concatenating the error records and summing the
network calls. -/
def runPass (step : Env → FS → Nat → Row → FS × List ErrorRec × Nat)
    (env : Env) : Nat → FS → List Row → FS × List ErrorRec × Nat
  | _, fs, [] => (fs, [], 0)
  | idx, fs, row :: rest =>
    let r := step env fs idx row
    let r2 := runPass step env (idx + 1) r.1 rest
    (r2.1, r.2.1 ++ r2.2.1, r.2.2 + r2.2.2)

/-- The observable result of one run of `main` (manifest already read):
final filesystem, the two error lists, and the total number of network calls
(GETs plus Grobid POSTs). -/
structure RunResult where
  fs : FS
  errsD : List ErrorRec
  errsP : List ErrorRec
  calls : Nat

/-- The two passes of `main` (lines 186-247) over the processed rows. -/
def mainRun (env : Env) (rows : List Row) (fs : FS) : RunResult :=
  let p1 := runPass pass1Row env 1 fs rows
  let p2 := runPass pass2Row env 1 p1.1 rows
  { fs := p2.1, errsD := p1.2.1, errsP := p2.2.1, calls := p1.2.2 + p2.2.2 }

/-- The batch slice of lines 179-184: `all_rows[BATCH_START : BATCH_START +
BATCH_SIZE]` when `BATCH_SIZE` is set, all rows otherwise. -/
def batchSlice (all : List Row) (start : Nat) (size : Option Nat) : List Row :=
  match size with
  | none => all
  | some s => (all.drop start).take s

/-- The error-log write of lines 254-266: `grobid_errors.json` is written only
when an error occurred, as an object with the two keys `download_errors` and
`parse_errors`. -/
def errorLog (r : RunResult) : Option (List (String × List ErrorRec)) :=
  if r.errsD ≠ [] ∨ r.errsP ≠ [] then
    some [("download_errors", r.errsD), ("parse_errors", r.errsP)]
  else none

/-- The whole of `main` (lines 161-266): raises `FileNotFoundError` when the
manifest CSV does not exist (line 162), otherwise runs the two passes over
the manifest rows. -/
def mainTop (env : Env) (manifest : Option (List Row)) (fs : FS) :
    Except String RunResult :=
  match manifest with
  | none => .error "FileNotFoundError: CSV not found"
  | some rows => .ok (mainRun env rows fs)

/-- Is a row fully realized on disk: either it has no resolvable identifier,
or all three artifacts of its folder exist. -/
def rowDone (fs : FS) (row : Row) : Bool :=
  resolvedId row = "" ||
    ((fs.pdf (resolvedId row)).isSome && (fs.tei (resolvedId row)).isSome &&
      (fs.meta (resolvedId row)).isSome)

/-- Are all rows of the manifest fully realized on disk. -/
def allWritten (fs : FS) (rows : List Row) : Bool :=
  rows.all (rowDone fs)

/-! ## Concrete fixtures used by witnesses and counterexamples -/

/-- Row A of the end-to-end scenario: valid URL, identifier `p1`. -/
def rowA : Row := ⟨"p1", "", "Title A", "http://u"⟩

/-- Row B of the end-to-end scenario: empty `pdf_url`. -/
def rowB : Row := ⟨"p2", "", "Title B", ""⟩

/-- A row identified only by its forum, with empty `pdf_url`. -/
def rowF : Row := ⟨"", "f1", "Title F", ""⟩

/-- A healthy environment: the URL of row A downloads fine and Grobid always
answers a valid TEI document. -/
def envC1 : Env :=
  { download := fun url => if url = "http://u" then .ok 0 else .error "boom"
    grobid := fun _ _ => .response "<TEI>x</TEI>" }

/-- An environment whose Grobid endpoint always fails at the transport
level. -/
def envFail : Env :=
  { download := fun _ => .ok 0
    grobid := fun _ _ => .exc "ConnectionError" }

/-- A Grobid oracle failing at the transport level on every attempt. -/
def oracleAllExc : Nat → Attempt := fun _ => .exc "ConnectionError"

/-- A Grobid oracle failing transport on attempts 1 and 2, then answering a
valid (whitespace-padded) TEI document on attempt 3. -/
def oracleThird : Nat → Attempt :=
  fun i => if i < 3 then .exc "ConnectionError" else .response " <TEI>ok</TEI> "

/-- A Grobid oracle answering 200 with an HTML error page. -/
def oracleHtml : Nat → Attempt := fun _ => .response "<html>oops</html>"

/-- A Grobid oracle answering a valid, whitespace-padded TEI document on
every attempt. -/
def oracleOk : Nat → Attempt := fun _ => .response " <TEI>ok</TEI> "

/-- A filesystem holding all three artifacts for folder `q`. -/
def fsQ : FS :=
  ((FS.empty.setPdf "q" 7).setTei "q" "<TEI>q</TEI>").setMeta "q" ⟨"q", "", "t", "u"⟩

/-- A filesystem holding only the PDF for folder `p1`. -/
def fsP : FS := FS.empty.setPdf "p1" 0

/-! ## The retry loop of the Parser Client -/

theorem grobidGo_fuel_zero (oracle : Nat → Attempt) (backoff : ℚ)
    (retries attempt : Nat) :
    grobidGo oracle backoff retries attempt 0 = (.success none, 0, []) := rfl

theorem grobidGo_response (oracle : Nat → Attempt) (backoff : ℚ)
    (retries attempt fuel : Nat) (body : String)
    (h : oracle attempt = .response body) :
    grobidGo oracle backoff retries attempt (fuel + 1) =
      if teiOk (strip body) then (.success (some (strip body)), 1, [])
      else (.validationErr, 1, []) := by
  simp only [grobidGo, h]

theorem grobidGo_exc_retry (oracle : Nat → Attempt) (backoff : ℚ)
    (retries attempt fuel : Nat) (e : String)
    (h : oracle attempt = .exc e) (hlt : attempt < retries) :
    grobidGo oracle backoff retries attempt (fuel + 1) =
      ((grobidGo oracle backoff retries (attempt + 1) fuel).1,
       (grobidGo oracle backoff retries (attempt + 1) fuel).2.1 + 1,
       backoff * (attempt : ℚ) ::
         (grobidGo oracle backoff retries (attempt + 1) fuel).2.2) := by
  simp only [grobidGo, h, if_pos hlt]

theorem grobidGo_exc_last (oracle : Nat → Attempt) (backoff : ℚ)
    (retries attempt fuel : Nat) (e : String)
    (h : oracle attempt = .exc e) (hge : ¬ attempt < retries) :
    grobidGo oracle backoff retries attempt (fuel + 1) =
      (.transportErr e, 1, []) := by
  simp only [grobidGo, h, if_neg hge]

/-- Running the loop from `attempt` with all attempts up to (excluding) `k`
failing at the transport level reaches attempt `k`, having consumed
`k - attempt` POSTs and slept `backoff * i` after each failed attempt `i`. -/
theorem grobidGo_skip_exc (oracle : Nat → Attempt) (backoff : ℚ)
    (retries : Nat) (es : Nat → String) :
    ∀ fuel attempt k, attempt + fuel = retries + 1 → attempt ≤ k →
      k ≤ retries →
      (∀ i, attempt ≤ i → i < k → oracle i = .exc (es i)) →
      grobidGo oracle backoff retries attempt fuel =
        ((grobidGo oracle backoff retries k (retries + 1 - k)).1,
         (grobidGo oracle backoff retries k (retries + 1 - k)).2.1 +
           (k - attempt),
         ((List.range' attempt (k - attempt)).map
             (fun i => backoff * (i : ℚ))) ++
           (grobidGo oracle backoff retries k (retries + 1 - k)).2.2) := by
  intro fuel
  induction fuel with
  | zero =>
    intro attempt k h1 h2 h3 _
    exfalso; omega
  | succ n ih =>
    intro attempt k h1 h2 h3 h4
    by_cases hak : attempt = k
    · subst hak
      have hfuel : retries + 1 - attempt = n + 1 := by omega
      rw [hfuel]
      simp
    · have hlt : attempt < k := lt_of_le_of_ne h2 hak
      have hexc : oracle attempt = .exc (es attempt) := h4 attempt le_rfl hlt
      have hltr : attempt < retries := by omega
      rw [grobidGo_exc_retry oracle backoff retries attempt n (es attempt)
            hexc hltr]
      rw [ih (attempt + 1) k (by omega) (by omega) h3
            (fun i hi1 hi2 => h4 i (by omega) hi2)]
      have hka : k - attempt = (k - (attempt + 1)) + 1 := by omega
      rw [hka, List.range'_succ]
      simp [Nat.add_assoc]

/-- The loop never performs more POST attempts than it has iterations left. -/
theorem grobidGo_attempts_le (oracle : Nat → Attempt) (backoff : ℚ)
    (retries : Nat) :
    ∀ fuel attempt, (grobidGo oracle backoff retries attempt fuel).2.1 ≤ fuel := by
  intro fuel
  induction fuel with
  | zero => intro attempt; simp [grobidGo]
  | succ n ih =>
    intro attempt
    simp only [grobidGo]
    split
    · split <;> simp
    · split
      · have := ih (attempt + 1)
        simp only []
        omega
      · simp

/-- `grobid_process_fulltext` performs at most `retries` POST attempts. -/
theorem grobidRun_attempts_le (oracle : Nat → Attempt) (backoff : ℚ)
    (retries : Nat) : (grobidRun oracle backoff retries).2.1 ≤ retries :=
  grobidGo_attempts_le oracle backoff retries retries 1

/-- All `retries` attempts fail at the transport level: the loop performs
exactly `retries` POSTs, sleeps `backoff * i` after each failed attempt
`i < retries`, and re-raises the last transport error. -/
theorem grobidRun_all_exc (oracle : Nat → Attempt) (backoff : ℚ)
    (retries : Nat) (es : Nat → String) (h1 : 1 ≤ retries)
    (h2 : ∀ i, 1 ≤ i → i ≤ retries → oracle i = .exc (es i)) :
    grobidRun oracle backoff retries =
      (.transportErr (es retries), retries,
        (List.range' 1 (retries - 1)).map (fun i => backoff * (i : ℚ))) := by
  unfold grobidRun
  rw [grobidGo_skip_exc oracle backoff retries es retries 1 retries (by omega)
        h1 le_rfl (fun i hi1 hi2 => h2 i hi1 (le_of_lt hi2))]
  have h3 : retries + 1 - retries = 1 := by omega
  rw [h3]
  rw [grobidGo_exc_last oracle backoff retries retries 0 (es retries)
        (h2 retries h1 le_rfl) (lt_irrefl retries)]
  simp [Prod.ext_iff]
  omega

/-- Attempts up to (excluding) `k ≤ retries` fail at the transport level and
attempt `k` gets a 2xx response `b`: the loop stops at attempt `k`, with the
validity of the stripped body deciding between the write-and-return and the
`ValueError`. -/
theorem grobidRun_response_at (oracle : Nat → Attempt) (backoff : ℚ)
    (retries : Nat) (es : Nat → String) (k : Nat) (b : String)
    (h1 : 1 ≤ k) (h2 : k ≤ retries)
    (h3 : ∀ i, 1 ≤ i → i < k → oracle i = .exc (es i))
    (h4 : oracle k = .response b) :
    grobidRun oracle backoff retries =
      ((if teiOk (strip b) then GrobidOutcome.success (some (strip b))
        else GrobidOutcome.validationErr),
        k, (List.range' 1 (k - 1)).map (fun i => backoff * (i : ℚ))) := by
  unfold grobidRun
  rw [grobidGo_skip_exc oracle backoff retries es retries 1 k (by omega)
        h1 h2 h3]
  obtain ⟨m, hm⟩ : ∃ m, retries + 1 - k = m + 1 := ⟨retries - k, by omega⟩
  rw [hm, grobidGo_response oracle backoff retries k m b h4]
  by_cases ht : teiOk (strip b) = true
  · simp [ht, Prod.ext_iff]
    omega
  · simp [ht, Prod.ext_iff]
    omega

/-! ## Structural lemmas about the two passes -/

theorem metaStep_pdf (fs : FS) (folder : String) (row : Row) :
    (metaStep fs folder row).pdf = fs.pdf := by
  simp only [metaStep]
  split <;> rfl

theorem metaStep_tei (fs : FS) (folder : String) (row : Row) :
    (metaStep fs folder row).tei = fs.tei := by
  simp only [metaStep]
  split <;> rfl

theorem metaStep_meta_mono (fs : FS) (folder : String) (row : Row)
    (f : String) (m : Meta) (h : fs.meta f = some m) :
    (metaStep fs folder row).meta f = some m := by
  simp only [metaStep]
  split
  · exact h
  next hnone =>
    simp only [FS.setMeta]
    split
    next heq => rw [heq] at h; rw [h] at hnone; exact absurd hnone (by simp)
    next => exact h

theorem pass1Row_tei_eq (env : Env) (fs : FS) (idx : Nat) (row : Row) :
    (pass1Row env fs idx row).1.tei = fs.tei := by
  simp only [pass1Row]
  split
  · rfl
  · split
    · rfl
    · split
      · rfl
      · split <;> rfl

theorem pass1Row_meta_eq (env : Env) (fs : FS) (idx : Nat) (row : Row) :
    (pass1Row env fs idx row).1.meta = fs.meta := by
  simp only [pass1Row]
  split
  · rfl
  · split
    · rfl
    · split
      · rfl
      · split <;> rfl

theorem pass1Row_pdf_mono (env : Env) (fs : FS) (idx : Nat) (row : Row)
    (f : String) (c : Nat) (h : fs.pdf f = some c) :
    (pass1Row env fs idx row).1.pdf f = some c := by
  simp only [pass1Row]
  split
  · exact h
  · split
    · exact h
    · split
      · exact h
      next hnone =>
        split
        · simp only [FS.setPdf]
          split
          next heq => rw [heq] at h; rw [h] at hnone; exact absurd hnone (by simp)
          next => exact h
        · exact h

theorem pass2Row_pdf_eq (env : Env) (fs : FS) (idx : Nat) (row : Row) :
    (pass2Row env fs idx row).1.pdf = fs.pdf := by
  simp only [pass2Row]
  split
  · rfl
  · split
    · rfl
    · split
      · rw [metaStep_pdf]
      · split
        · rw [metaStep_pdf]; rfl
        · rw [metaStep_pdf]
        · rfl
        · rfl

theorem pass2Row_tei_mono (env : Env) (fs : FS) (idx : Nat) (row : Row)
    (f : String) (t : String) (h : fs.tei f = some t) :
    (pass2Row env fs idx row).1.tei f = some t := by
  simp only [pass2Row]
  split
  · exact h
  · split
    · exact h
    · split
      · rw [metaStep_tei]; exact h
      next hnone =>
        split
        · rw [metaStep_tei]
          simp only [FS.setTei]
          split
          next heq => rw [heq] at h; rw [h] at hnone; exact absurd hnone (by simp)
          next => exact h
        · rw [metaStep_tei]; exact h
        · exact h
        · exact h

theorem pass2Row_meta_mono (env : Env) (fs : FS) (idx : Nat) (row : Row)
    (f : String) (m : Meta) (h : fs.meta f = some m) :
    (pass2Row env fs idx row).1.meta f = some m := by
  simp only [pass2Row]
  split
  · exact h
  · split
    · exact h
    · split
      · exact metaStep_meta_mono _ _ _ _ _ h
      · split
        · exact metaStep_meta_mono _ _ _ _ _ h
        · exact metaStep_meta_mono _ _ _ _ _ h
        · exact h
        · exact h

theorem pass1Row_err_eq (env : Env) (fs : FS) (idx : Nat) (row : Row)
    (rec : ErrorRec) (h : rec ∈ (pass1Row env fs idx row).2.1) :
    rec.1 = idx ∧ rec.2.1 = strip row.paper_id := by
  simp only [pass1Row] at h
  split at h
  · simp at h; simp [h]
  · split at h
    · simp at h; simp [h]
    · split at h
      · simp at h
      · split at h
        · simp at h
        · simp at h; simp [h]

theorem pass2Row_err_eq (env : Env) (fs : FS) (idx : Nat) (row : Row)
    (rec : ErrorRec) (h : rec ∈ (pass2Row env fs idx row).2.1) :
    rec.1 = idx ∧ rec.2.1 = strip row.paper_id := by
  simp only [pass2Row] at h
  split at h
  · simp at h; simp [h]
  · split at h
    · simp at h; simp [h]
    · split at h
      · simp at h
      · split at h
        · simp at h
        · simp at h
        · simp at h; simp [h]
        · simp at h; simp [h]

theorem pass1Row_errs_le (env : Env) (fs : FS) (idx : Nat) (row : Row) :
    (pass1Row env fs idx row).2.1.length ≤ 1 := by
  simp only [pass1Row]
  split
  · simp
  · split
    · simp
    · split
      · simp
      · split <;> simp

theorem pass2Row_errs_le (env : Env) (fs : FS) (idx : Nat) (row : Row) :
    (pass2Row env fs idx row).2.1.length ≤ 1 := by
  simp only [pass2Row]
  split
  · simp
  · split
    · simp
    · split
      · simp
      · split <;> simp

/-- A pass preserves every already-present artifact entry, as long as one
row-step does. -/
theorem runPass_fs_mono {α : Type} (read : FS → String → Option α)
    (step : Env → FS → Nat → Row → FS × List ErrorRec × Nat) (env : Env)
    (hstep : ∀ fs idx row f v, read fs f = some v →
      read (step env fs idx row).1 f = some v) :
    ∀ rows idx fs f v, read fs f = some v →
      read (runPass step env idx fs rows).1 f = some v := by
  intro rows
  induction rows with
  | nil => intro idx fs f v h; exact h
  | cons row rest ih =>
    intro idx fs f v h
    simp only [runPass]
    exact ih (idx + 1) (step env fs idx row).1 f v (hstep fs idx row f v h)

/-- A pass whose every row satisfies a row-step-neutral condition leaves the
filesystem unchanged and makes no network call. -/
theorem runPass_no_calls
    (step : Env → FS → Nat → Row → FS × List ErrorRec × Nat) (env : Env)
    (cond : FS → Row → Bool)
    (hstep : ∀ fs idx row, cond fs row = true →
      (step env fs idx row).1 = fs ∧ (step env fs idx row).2.2 = 0) :
    ∀ rows idx fs, (∀ row ∈ rows, cond fs row = true) →
      (runPass step env idx fs rows).1 = fs ∧
        (runPass step env idx fs rows).2.2 = 0 := by
  intro rows
  induction rows with
  | nil => intro idx fs _; exact ⟨rfl, rfl⟩
  | cons row rest ih =>
    intro idx fs h
    have h0 := hstep fs idx row (h row (List.mem_cons_self row rest))
    have h2 := ih (idx + 1) fs (fun r hr => h r (List.mem_cons_of_mem row hr))
    simp only [runPass, h0.1]
    exact ⟨h2.1, by rw [h0.2, h2.2]⟩

/-- A pass appends at most one error record per row. -/
theorem runPass_errs_le
    (step : Env → FS → Nat → Row → FS × List ErrorRec × Nat) (env : Env)
    (hstep : ∀ fs idx row, (step env fs idx row).2.1.length ≤ 1) :
    ∀ rows idx fs, (runPass step env idx fs rows).2.1.length ≤ rows.length := by
  intro rows
  induction rows with
  | nil => intro idx fs; simp [runPass]
  | cons row rest ih =>
    intro idx fs
    simp only [runPass, List.length_append, List.length_cons]
    have h1 := hstep fs idx row
    have h2 := ih (idx + 1) (step env fs idx row).1
    omega

/-- Every error record of a pass started at index `idx` carries an index in
`[idx, idx + number of rows)`, when each row-step stamps its own index. -/
theorem runPass_err_idx
    (step : Env → FS → Nat → Row → FS × List ErrorRec × Nat) (env : Env)
    (hstep : ∀ fs idx row rec, rec ∈ (step env fs idx row).2.1 → rec.1 = idx) :
    ∀ rows idx fs rec, rec ∈ (runPass step env idx fs rows).2.1 →
      idx ≤ rec.1 ∧ rec.1 < idx + rows.length := by
  intro rows
  induction rows with
  | nil => intro idx fs rec h; simp [runPass] at h
  | cons row rest ih =>
    intro idx fs rec h
    simp only [runPass, List.mem_append] at h
    simp only [List.length_cons]
    cases h with
    | inl h => have := hstep fs idx row rec h; omega
    | inr h => have := ih (idx + 1) (step env fs idx row).1 rec h; omega

/-- A fully realized row makes pass 1 a no-op with no network call. -/
theorem pass1Row_done (env : Env) (fs : FS) (idx : Nat) (row : Row)
    (h : rowDone fs row = true) :
    (pass1Row env fs idx row).1 = fs ∧ (pass1Row env fs idx row).2.2 = 0 := by
  simp only [pass1Row]
  split
  · exact ⟨rfl, rfl⟩
  · split
    · exact ⟨rfl, rfl⟩
    next hfolder =>
      split
      · exact ⟨rfl, rfl⟩
      next hnone => exfalso; simp [rowDone, hfolder, hnone] at h

/-- A fully realized row makes pass 2 a no-op with no network call. -/
theorem pass2Row_done (env : Env) (fs : FS) (idx : Nat) (row : Row)
    (h : rowDone fs row = true) :
    (pass2Row env fs idx row).1 = fs ∧ (pass2Row env fs idx row).2.2 = 0 := by
  simp only [pass2Row]
  split
  · exact ⟨rfl, rfl⟩
  next hfolder =>
    split
    next hnone => exfalso; simp [rowDone, hfolder, hnone] at h
    next c hsome =>
      split
      next t hsometei =>
        constructor
        · simp only [metaStep]
          split
          · rfl
          next hmnone => exfalso; simp [rowDone, hfolder, hmnone] at h
        · rfl
      next hteinone => exfalso; simp [rowDone, hfolder, hteinone] at h

/-- A full run never forgets or replaces an existing PDF. -/
theorem mainRun_pdf_mono (env : Env) (rows : List Row) (fs : FS)
    (f : String) (c : Nat) (h : fs.pdf f = some c) :
    (mainRun env rows fs).fs.pdf f = some c := by
  simp only [mainRun]
  refine runPass_fs_mono (fun fs f => fs.pdf f) pass2Row env
    (fun fs idx row f v hv => by dsimp only; rw [pass2Row_pdf_eq]; exact hv) rows 1 _ f c ?_
  exact runPass_fs_mono (fun fs f => fs.pdf f) pass1Row env
    (fun fs idx row f v hv => pass1Row_pdf_mono env fs idx row f v hv)
    rows 1 fs f c h

/-- A full run never forgets or replaces an existing TEI file. -/
theorem mainRun_tei_mono (env : Env) (rows : List Row) (fs : FS)
    (f : String) (t : String) (h : fs.tei f = some t) :
    (mainRun env rows fs).fs.tei f = some t := by
  simp only [mainRun]
  refine runPass_fs_mono (fun fs f => fs.tei f) pass2Row env
    (fun fs idx row f v hv => pass2Row_tei_mono env fs idx row f v hv) rows 1 _ f t ?_
  exact runPass_fs_mono (fun fs f => fs.tei f) pass1Row env
    (fun fs idx row f v hv => by dsimp only; rw [pass1Row_tei_eq]; exact hv)
    rows 1 fs f t h

/-- A full run never forgets or replaces an existing `meta.json`. -/
theorem mainRun_meta_mono (env : Env) (rows : List Row) (fs : FS)
    (f : String) (m : Meta) (h : fs.meta f = some m) :
    (mainRun env rows fs).fs.meta f = some m := by
  simp only [mainRun]
  refine runPass_fs_mono (fun fs f => fs.meta f) pass2Row env
    (fun fs idx row f v hv => pass2Row_meta_mono env fs idx row f v hv) rows 1 _ f m ?_
  exact runPass_fs_mono (fun fs f => fs.meta f) pass1Row env
    (fun fs idx row f v hv => by dsimp only; rw [pass1Row_meta_eq]; exact hv)
    rows 1 fs f m h

/-- A run starting from a filesystem on which every row is fully realized
makes no network call at all. -/
theorem mainRun_calls_zero (env : Env) (rows : List Row) (fs : FS)
    (h : allWritten fs rows = true) : (mainRun env rows fs).calls = 0 := by
  have hall : ∀ row ∈ rows, rowDone fs row = true := by
    simpa [allWritten, List.all_eq_true] using h
  have p1 := runPass_no_calls pass1Row env rowDone
    (fun fs idx row hc => pass1Row_done env fs idx row hc) rows 1 fs hall
  simp only [mainRun]
  rw [p1.1]
  have p2 := runPass_no_calls pass2Row env rowDone
    (fun fs idx row hc => pass2Row_done env fs idx row hc) rows 1 fs hall
  rw [p1.2, p2.2]

/-! ## The claims -/

/-- C1, counterexample: in the two-row scenario (row A valid with identifier
`p1`, row B with an empty `pdf_url`), pass 2 also records a
`pdf_not_downloaded` parse error for row B, so the printed parse-error count
is 1, not 0, and the error log does not contain exactly one entry. -/
theorem C1_counterexample :
    (mainRun envC1 [rowA, rowB] FS.empty).errsP =
      [(2, "p2", "pdf_not_downloaded")] ∧
    (mainRun envC1 [rowA, rowB] FS.empty).errsP.length ≠ 0 := by
  decide

/-- C1, amended: for a manifest of two rows where row A has a valid URL and
identifier `p1` and row B has an empty `pdf_url`, after one run from an empty
output tree the PDF, the TEI file and `meta.json` exist for `p1`,
`grobid_errors.json` contains exactly two entries for row B — one download
error with reason `missing_pdf_url` and one parse error with reason
`pdf_not_downloaded` — and the printed download-error and parse-error counts
are 1 and 1. -/
theorem C1_end_to_end :
    (mainRun envC1 [rowA, rowB] FS.empty).fs.pdf "p1" = some 0 ∧
    (mainRun envC1 [rowA, rowB] FS.empty).fs.tei "p1" = some "<TEI>x</TEI>" ∧
    (mainRun envC1 [rowA, rowB] FS.empty).fs.meta "p1" =
      some ⟨"p1", "", "Title A", "http://u"⟩ ∧
    (mainRun envC1 [rowA, rowB] FS.empty).errsD =
      [(2, "p2", "missing_pdf_url")] ∧
    (mainRun envC1 [rowA, rowB] FS.empty).errsP =
      [(2, "p2", "pdf_not_downloaded")] ∧
    (mainRun envC1 [rowA, rowB] FS.empty).errsD.length = 1 ∧
    (mainRun envC1 [rowA, rowB] FS.empty).errsP.length = 1 ∧
    errorLog (mainRun envC1 [rowA, rowB] FS.empty) =
      some [("download_errors", [(2, "p2", "missing_pdf_url")]),
            ("parse_errors", [(2, "p2", "pdf_not_downloaded")])] := by
  decide

/-- C2, counterexample: on a 2xx response whose body has surrounding
whitespace, the client writes the stripped text, not the raw response body
verbatim. -/
theorem C2_counterexample :
    (grobidRun (fun _ => Attempt.response "  <TEI/>\n") 5 3).1 =
      GrobidOutcome.success (some "<TEI/>") ∧
    ("<TEI/>" : String) ≠ "  <TEI/>\n" := by
  decide

/-- C2, amended: on a successful extraction the client writes the response
text with leading and trailing whitespace stripped (UTF-8) to the output
path. -/
theorem C2_write_stripped (oracle : Nat → Attempt) (backoff : ℚ)
    (retries : Nat) (body : String) (h1 : 1 ≤ retries)
    (h2 : oracle 1 = .response body) (h3 : teiOk (strip body) = true) :
    (grobidRun oracle backoff retries).1 =
      GrobidOutcome.success (some (strip body)) := by
  rw [grobidRun_response_at oracle backoff retries (fun _ => "") 1 body
        le_rfl h1 (fun i hi1 hi2 => by omega) h2]
  simp [h3]

theorem C2_witness :
    (grobidRun oracleOk 5 3).1 =
      GrobidOutcome.success (some (strip " <TEI>ok</TEI> ")) ∧
    strip " <TEI>ok</TEI> " = "<TEI>ok</TEI>" :=
  ⟨C2_write_stripped oracleOk 5 3 " <TEI>ok</TEI> " (by decide) rfl (by decide),
   by decide⟩

/-- C3: only transport failures are retried, up to `retries` attempts in
total, sleeping `backoff * i` after each failed attempt `i` before the next
one; exhausting all `retries` attempts on transport failures re-raises the
last transport error.  A 2xx response at attempt `k` always ends the loop at
`k` attempts, with only the `k - 1` transport sleeps taken. -/
theorem C3_retry_policy (oracle : Nat → Attempt) (backoff : ℚ)
    (retries : Nat) (es : Nat → String) (k : Nat) (b : String) :
    ((grobidRun oracle backoff retries).2.1 ≤ retries ∧
     (1 ≤ retries → (∀ i, 1 ≤ i → i ≤ retries → oracle i = .exc (es i)) →
      grobidRun oracle backoff retries =
        (.transportErr (es retries), retries,
          (List.range' 1 (retries - 1)).map (fun i => backoff * (i : ℚ)))) ∧
     (1 ≤ k → k ≤ retries → (∀ i, 1 ≤ i → i < k → oracle i = .exc (es i)) →
      oracle k = .response b →
      (grobidRun oracle backoff retries).2.1 = k ∧
      (grobidRun oracle backoff retries).2.2 =
        (List.range' 1 (k - 1)).map (fun i => backoff * (i : ℚ)))) :=
  ⟨grobidRun_attempts_le oracle backoff retries,
   fun h1 h2 => grobidRun_all_exc oracle backoff retries es h1 h2,
   fun h1 h2 h3 h4 => by
     rw [grobidRun_response_at oracle backoff retries es k b h1 h2 h3 h4]
     exact ⟨rfl, rfl⟩⟩

theorem C3_witness :
    grobidRun oracleAllExc 5 3 =
      (.transportErr "ConnectionError", 3,
        (List.range' 1 2).map (fun i => (5 : ℚ) * (i : ℚ))) ∧
    (grobidRun oracleThird 5 3).2.1 = 3 ∧
    (grobidRun oracleThird 5 3).2.2 =
      (List.range' 1 2).map (fun i => (5 : ℚ) * (i : ℚ)) := by
  refine ⟨?_, ?_⟩
  · exact (C3_retry_policy oracleAllExc 5 3 (fun _ => "ConnectionError")
      1 "").2.1 (by decide) (fun i h1 h2 => rfl)
  · exact (C3_retry_policy oracleThird 5 3 (fun _ => "ConnectionError")
      3 " <TEI>ok</TEI> ").2.2 (by decide) (by decide)
      (fun i h1 h2 => by simp [oracleThird, h2]) (by simp [oracleThird])

/-- C4: a 2xx response whose stripped body is empty or lacks the `<TEI`
marker makes the call raise the content-validation `ValueError` at once: the
loop ends at that attempt (here attempt `k`, consuming no further retry), no
output is written (the outcome is `validationErr`, not `success`), and no
additional sleep is taken. -/
theorem C4_validation_not_retried (oracle : Nat → Attempt) (backoff : ℚ)
    (retries : Nat) (es : Nat → String) (k : Nat) (b : String)
    (h1 : 1 ≤ k) (h2 : k ≤ retries)
    (h3 : ∀ i, 1 ≤ i → i < k → oracle i = .exc (es i))
    (h4 : oracle k = .response b) (h5 : teiOk (strip b) = false) :
    grobidRun oracle backoff retries =
      (.validationErr, k,
        (List.range' 1 (k - 1)).map (fun i => backoff * (i : ℚ))) := by
  rw [grobidRun_response_at oracle backoff retries es k b h1 h2 h3 h4]
  simp [h5]

theorem C4_witness :
    grobidRun oracleHtml 5 3 =
      (.validationErr, 1,
        (List.range' 1 0).map (fun i => (5 : ℚ) * (i : ℚ))) :=
  C4_validation_not_retried oracleHtml 5 3 (fun _ => "") 1 "<html>oops</html>"
    (by decide) (by decide) (fun i h1 h2 => by omega) rfl (by decide)

/-- C5: every artifact write is existence-gated — a run never replaces or
deletes an existing PDF, TEI file or `meta.json` — and a second run on an
unchanged manifest, started after a run whose result has all three artifacts
for every resolvable row, performs zero network calls. -/
theorem C5_existence_gating (env : Env) (rows : List Row) (fs : FS) :
    (∀ f c, fs.pdf f = some c → (mainRun env rows fs).fs.pdf f = some c) ∧
    (∀ f t, fs.tei f = some t → (mainRun env rows fs).fs.tei f = some t) ∧
    (∀ f m, fs.meta f = some m → (mainRun env rows fs).fs.meta f = some m) ∧
    (allWritten (mainRun env rows fs).fs rows = true →
      (mainRun env rows (mainRun env rows fs).fs).calls = 0) :=
  ⟨mainRun_pdf_mono env rows fs, mainRun_tei_mono env rows fs,
   mainRun_meta_mono env rows fs,
   fun h => mainRun_calls_zero env rows (mainRun env rows fs).fs h⟩

theorem C5_witness :
    (mainRun envC1 [rowA] fsQ).fs.pdf "q" = some 7 ∧
    (mainRun envC1 [rowA] fsQ).fs.tei "q" = some "<TEI>q</TEI>" ∧
    (mainRun envC1 [rowA] fsQ).fs.meta "q" = some ⟨"q", "", "t", "u"⟩ ∧
    (mainRun envC1 [rowA] (mainRun envC1 [rowA] FS.empty).fs).calls = 0 :=
  ⟨(C5_existence_gating envC1 [rowA] fsQ).1 "q" 7 (by decide),
   (C5_existence_gating envC1 [rowA] fsQ).2.1 "q" "<TEI>q</TEI>" (by decide),
   (C5_existence_gating envC1 [rowA] fsQ).2.2.1 "q" ⟨"q", "", "t", "u"⟩
     (by decide),
   (C5_existence_gating envC1 [rowA] FS.empty).2.2.2 (by decide)⟩

/-- C6: the run fails fatally exactly when the manifest is missing; with a
manifest present it always returns a result, every per-row failure being
converted into at most one record per row in one of the two error lists. -/
theorem C6_fatal_iff (env : Env) (manifest : Option (List Row)) (fs : FS) :
    ((∃ msg, mainTop env manifest fs = Except.error msg) ↔ manifest = none) ∧
    (∀ rows, manifest = some rows →
      mainTop env manifest fs = Except.ok (mainRun env rows fs) ∧
      (mainRun env rows fs).errsD.length ≤ rows.length ∧
      (mainRun env rows fs).errsP.length ≤ rows.length) := by
  constructor
  · constructor
    · intro ⟨msg, hmsg⟩
      cases manifest with
      | none => rfl
      | some rows => simp [mainTop] at hmsg
    · intro h; subst h; exact ⟨_, rfl⟩
  · intro rows h; subst h
    refine ⟨rfl, ?_, ?_⟩
    · exact runPass_errs_le pass1Row env
        (fun fs idx row => pass1Row_errs_le env fs idx row) rows 1 fs
    · exact runPass_errs_le pass2Row env
        (fun fs idx row => pass2Row_errs_le env fs idx row) rows 1 _

theorem C6_witness :
    mainTop envC1 (some [rowA, rowB]) FS.empty =
      Except.ok (mainRun envC1 [rowA, rowB] FS.empty) ∧
    (mainRun envC1 [rowA, rowB] FS.empty).errsD.length ≤
      ([rowA, rowB] : List Row).length ∧
    (mainRun envC1 [rowA, rowB] FS.empty).errsP.length ≤
      ([rowA, rowB] : List Row).length :=
  (C6_fatal_iff envC1 (some [rowA, rowB]) FS.empty).2 [rowA, rowB] rfl

/-- C7: `grobid_errors.json` is written if and only if at least one download
or parse error was recorded, and its content is the object with exactly the
two keys `download_errors` and `parse_errors`, holding the two lists of
`(index, paper_id, reason)` records. -/
theorem C7_error_log (env : Env) (rows : List Row) (fs : FS) :
    ((errorLog (mainRun env rows fs)).isSome ↔
      ((mainRun env rows fs).errsD ≠ [] ∨ (mainRun env rows fs).errsP ≠ [])) ∧
    (∀ l, errorLog (mainRun env rows fs) = some l →
      l = [("download_errors", (mainRun env rows fs).errsD),
           ("parse_errors", (mainRun env rows fs).errsP)]) := by
  constructor
  · by_cases hd : (mainRun env rows fs).errsD ≠ [] ∨
      (mainRun env rows fs).errsP ≠ []
    · simp [errorLog, hd]
    · simp [errorLog, hd]
  · intro l hl
    simp only [errorLog] at hl
    split at hl
    · simp at hl; exact hl.symm
    · exact absurd hl (by simp)

theorem C7_witness :
    ([("download_errors", [((2 : Nat), "p2", "missing_pdf_url")]),
      ("parse_errors", [((2 : Nat), "p2", "pdf_not_downloaded")])] :
        List (String × List ErrorRec)) =
      [("download_errors", (mainRun envC1 [rowA, rowB] FS.empty).errsD),
       ("parse_errors", (mainRun envC1 [rowA, rowB] FS.empty).errsP)] :=
  (C7_error_log envC1 [rowA, rowB] FS.empty).2 _ (by decide)

/-- C8: every error record produced while processing a batch slice carries
the row's 1-based position `j + 1` inside the slice, which differs from the
row's 1-based position `start + j + 1` in the manifest whenever the batch
start offset is positive. -/
theorem C8_batch_relative_index (env : Env) (all : List Row) (fs : FS)
    (b s : Nat) (rec : ErrorRec) (hb : 0 < b)
    (h : rec ∈ (mainRun env (batchSlice all b (some s)) fs).errsD ∨
         rec ∈ (mainRun env (batchSlice all b (some s)) fs).errsP) :
    ∃ j, j < (batchSlice all b (some s)).length ∧ rec.1 = j + 1 ∧
      rec.1 ≠ b + j + 1 := by
  have hbound : 1 ≤ rec.1 ∧
      rec.1 < 1 + (batchSlice all b (some s)).length := by
    cases h with
    | inl h =>
      exact runPass_err_idx pass1Row env
        (fun fs idx row rec hr => (pass1Row_err_eq env fs idx row rec hr).1)
        (batchSlice all b (some s)) 1 fs rec h
    | inr h =>
      exact runPass_err_idx pass2Row env
        (fun fs idx row rec hr => (pass2Row_err_eq env fs idx row rec hr).1)
        (batchSlice all b (some s)) 1 _ rec h
  exact ⟨rec.1 - 1, by omega, by omega, by omega⟩

theorem C8_witness :
    ∃ j, j < (batchSlice [rowA, rowA, rowB] 2 (some 5)).length ∧
      (((1 : Nat), "p2", "missing_pdf_url") : ErrorRec).1 = j + 1 ∧
      (((1 : Nat), "p2", "missing_pdf_url") : ErrorRec).1 ≠ 2 + j + 1 :=
  C8_batch_relative_index envC1 [rowA, rowA, rowB] FS.empty 2 5
    (1, "p2", "missing_pdf_url") (by decide) (Or.inl (by decide))

/-- C9: in pass 2, for a row whose TEI file is missing, if the extraction
fails (transport failure after retries, or validation failure) then
`meta.json` is not written for that row in that run — the metadata map is
unchanged — and exactly one parse error is recorded. -/
theorem C9_meta_gated_on_parse (env : Env) (fs : FS) (idx : Nat) (row : Row)
    (h1 : ¬ resolvedId row = "")
    (h2 : (fs.pdf (resolvedId row)).isSome = true)
    (h3 : fs.tei (resolvedId row) = none)
    (h4 : ∀ t, (grobidRun (env.grobid (resolvedId row)) 5 3).1 ≠
      GrobidOutcome.success t) :
    (pass2Row env fs idx row).1.meta = fs.meta ∧
      (pass2Row env fs idx row).2.1.length = 1 := by
  simp only [pass2Row]
  rw [if_neg h1]
  obtain ⟨c, hc⟩ := Option.isSome_iff_exists.mp h2
  simp only [hc, h3]
  cases hg : (grobidRun (env.grobid (resolvedId row)) 5 3).1 with
  | success written => exact absurd hg (h4 written)
  | transportErr e => exact ⟨rfl, rfl⟩
  | validationErr => exact ⟨rfl, rfl⟩

theorem C9_witness :
    (pass2Row envFail fsP 1 rowA).1.meta = fsP.meta ∧
      (pass2Row envFail fsP 1 rowA).2.1.length = 1 :=
  C9_meta_gated_on_parse envFail fsP 1 rowA (by decide) (by decide)
    (by decide)
    (fun t ht => by
      rw [show (grobidRun (envFail.grobid (resolvedId rowA)) 5 3).1 =
            GrobidOutcome.transportErr "ConnectionError" by decide] at ht
      cases ht)

/-- C10: every error record's second component is the row's stripped raw
`paper_id` field (empty when absent), never the resolved identifier: for a
row identified only by its forum, the recorded `paper_id` is empty and
differs from the resolved identifier. -/
theorem C10_error_paper_id (env : Env) (fs : FS) (idx : Nat) (row : Row)
    (rec : ErrorRec)
    (h : rec ∈ (pass1Row env fs idx row).2.1 ∨
         rec ∈ (pass2Row env fs idx row).2.1) :
    rec.2.1 = strip row.paper_id ∧
      (strip row.paper_id = "" → strip row.forum ≠ "" →
        rec.2.1 ≠ resolvedId row) := by
  have hpid : rec.2.1 = strip row.paper_id := by
    cases h with
    | inl h => exact (pass1Row_err_eq env fs idx row rec h).2
    | inr h => exact (pass2Row_err_eq env fs idx row rec h).2
  refine ⟨hpid, fun he hf => ?_⟩
  rw [hpid, he]
  unfold resolvedId
  rw [if_pos he]
  exact Ne.symm hf

theorem C10_witness :
    (((1 : Nat), "", "missing_pdf_url") : ErrorRec).2.1 =
      strip rowF.paper_id ∧
    (strip rowF.paper_id = "" → strip rowF.forum ≠ "" →
      (((1 : Nat), "", "missing_pdf_url") : ErrorRec).2.1 ≠ resolvedId rowF) :=
  C10_error_paper_id envC1 FS.empty 1 rowF (1, "", "missing_pdf_url")
    (Or.inl (by decide))

end GetAndParsePDF
